import Mathlib

/-!
Verification of the Canva extractor (`yt_dlp/extractor/canva.py`).

The extractor is embedded shallowly: Python strings become `List Char`, the
JSON values the host's download helper hands back become an inductive `JVal`,
and the effectful `_real_extract` method becomes a pure function from the
collaborator outputs (fetched page text, og/html titles, og thumbnail, the
initiate-export JSON response, and the scripted sequence of poll JSON
responses) to an outcome together with a trace of observable events
(page fetch, export initiation, each cooperative delay and the poll fetch
following it).
-/

namespace Canva

/-- Python strings are modelled as lists of characters. -/
abbrev Str := List Char

/-- The whitespace characters matched by the regex class `\s` on ASCII text
(Python `re`): space, tab, newline, carriage return, vertical tab, form feed. -/
def pyIsSpace (c : Char) : Bool :=
  c = ' ' || c = '\t' || c = '\n' || c = '\r' || c = '\x0b' || c = '\x0c'

/-- Python `str.lower`, character by character. -/
def lowerStr (s : Str) : Str := s.map Char.toLower

/-- Drop a literal token from the head of the string, returning the remainder
when the whole token is present. -/
def dropLit : Str → Str → Option Str
  | [], s => some s
  | _ :: _, [] => none
  | c :: p, x :: s => if x = c then dropLit p s else none

/-- Greedy whitespace skip. Every `\s*` in the patterns below is followed by a
non-whitespace literal (or a digit), so maximal munch is exactly the regex
backtracking semantics. -/
def skipWs (s : Str) : Str := s.dropWhile pyIsSpace

/-- Match the guard part `while\s*\(\s*1\s*\)\s*;\s*</x>//` of
`_JSON_HIJACK_RE` (canva.py line 45) at the head of the string, returning the
remainder after it. -/
def matchGuard (s : Str) : Option Str :=
  (dropLit "while".data s).bind fun s1 =>
  (dropLit "(".data (skipWs s1)).bind fun s2 =>
  (dropLit "1".data (skipWs s2)).bind fun s3 =>
  (dropLit ")".data (skipWs s3)).bind fun s4 =>
  (dropLit ";".data (skipWs s4)).bind fun s5 =>
  dropLit "</x>//".data (skipWs s5)

/-- Scan of `re.sub(_JSON_HIJACK_RE, '', data)`: the pattern is anchored by `^`
(no MULTILINE), its `.*?` part cannot cross a newline and is non-greedy, so the
substitution removes the prefix up to the end of the first guard occurrence
whose `.*?` prefix lies on the first line, if any. Returns the remainder after
that occurrence. -/
def stripAux : Str → Option Str
  | [] => none
  | s@(c :: t) =>
    match matchGuard s with
    | some r => some r
    | none => if c = '\n' then none else stripAux t

/-- `CanvaIE._strip_json_hijack` (canva.py lines 49-50): remove the JSON-hijack
guard prefix when the anchored pattern matches, else return the text unchanged. -/
def strip_json_hijack (s : Str) : Str := (stripAux s).getD s

/-- Whether the guard matches starting at some position of the string. -/
def hasGuard (s : Str) : Bool :=
  (List.range (s.length + 1)).any fun i => (matchGuard (s.drop i)).isSome

/-- No position of the string starts a guard occurrence. -/
def GuardFree (s : Str) : Prop := ∀ i, matchGuard (s.drop i) = none

/-- Length of the first line: the number of characters before the first
newline. -/
def firstLineLen (s : Str) : Nat := (s.takeWhile fun c => c ≠ '\n').length

/-- JSON values as parsed by the host's download helper. -/
inductive JVal where
  | null
  | jbool (b : Bool)
  | jnum (n : Int)
  | jstr (s : Str)
  | jarr (elems : List JVal)
  | jobj (fields : List (Str × JVal))

/-- Modelled from the spec: the host's optional-path accessor `traverse_obj`
(not under src/), \"traverse a JSON tree by path, tolerate missing keys,
optionally coerce to a type\" — the object-key step returns the value of the
first field with the given key. -/
def JVal.key (k : Str) : JVal → Option JVal
  | .jobj fs => (fs.find? fun p => p.1 = k).map fun p => p.2
  | _ => none

/-- Modelled from the spec: the array-index step of the path accessor. -/
def JVal.idx (i : Nat) : JVal → Option JVal
  | .jarr xs => xs.get? i
  | _ => none

/-- Modelled from the spec: the `{str}` coercion of the path accessor — keep
the value only when it is a JSON string. -/
def JVal.asStr : JVal → Option Str
  | .jstr s => some s
  | _ => none

/-- Path `('export', 'exportIdentifier', {str})` (canva.py line 108). -/
def exportIdOf (j : JVal) : Option Str :=
  (j.key "export".data).bind fun e => (e.key "exportIdentifier".data).bind JVal.asStr

/-- Lines 108-110 with Python truthiness: `if not export_id` treats a missing
identifier and an empty string alike as absent. -/
def exportIdTruthy (j : JVal) : Option Str :=
  match exportIdOf j with
  | some s => if s = [] then none else some s
  | none => none

/-- Path `('export', 'status', {str})` (line 123). -/
def statusOf (j : JVal) : Option Str :=
  (j.key "export".data).bind fun e => (e.key "status".data).bind JVal.asStr

/-- Modelled from the spec: the host's `url_or_none` well-formed-URL check
(not under src/) — the string must carry an http(s) or protocol-relative
scheme, as in the URLs of the external-interface section. -/
def wellFormedUrl (s : Str) : Bool :=
  (dropLit "https://".data s).isSome || (dropLit "http://".data s).isSome ||
    (dropLit "//".data s).isSome

/-- Modelled from the spec: `{url_or_none}` coercion — a string that passes the
well-formed-URL check, else absent. -/
def urlOrNone (o : Option JVal) : Option Str :=
  (o.bind JVal.asStr).bind fun s => if wellFormedUrl s then some s else none

/-- Path `('export', 'output', 'exportBlobs', 0, 'url', {url_or_none})`
(lines 125-126). -/
def urlFromOutput (j : JVal) : Option Str :=
  urlOrNone ((j.key "export".data).bind fun e => (e.key "output".data).bind fun o =>
    (o.key "exportBlobs".data).bind fun b => (b.idx 0).bind (JVal.key "url".data))

/-- Path `('export', 'exportBlobs', 0, 'url', {url_or_none})` (lines 126-127). -/
def urlFromExport (j : JVal) : Option Str :=
  urlOrNone ((j.key "export".data).bind fun e =>
    (e.key "exportBlobs".data).bind fun b => (b.idx 0).bind (JVal.key "url".data))

/-- `video_url = <shape A> or <shape B>` (lines 125-127); a well-formed URL is
never the empty string, so Python's falsy `or` is option-orElse here. -/
def videoUrlOf (j : JVal) : Option Str :=
  (urlFromOutput j).orElse fun _ => urlFromExport j

/-- Path `('export', 'output', 'title', {str})` (line 134). -/
def outTitleOf (j : JVal) : Option Str :=
  (j.key "export".data).bind fun e => (e.key "output".data).bind fun o =>
    (o.key "title".data).bind JVal.asStr

/-- Python `a or b` for an optional string and a fallback: `None` and the empty
string are falsy. -/
def pyOrStr (a : Option Str) (b : Str) : Str :=
  match a with
  | some s => if s = [] then b else s
  | none => b

/-- The case-insensitive denial marker of line 56. -/
def sPermission : Str := "permission".data

/-- The exact-case denial marker of line 56. -/
def sRequestAccess : Str := "Request access".data

/-- Line 56: `'permission' in webpage.lower() or 'Request access' in webpage`. -/
def hasAccessMarker (w : Str) : Bool :=
  decide (sPermission <:+: lowerStr w) || decide (sRequestAccess <:+: w)

/-- Capture group `(\d+(?:\.\d+)?)` of the dimension pattern (line 66): a
maximal digit run, optionally a dot and a further maximal digit run. The
literal that follows in the pattern is never a digit, a dot or whitespace, so
maximal munch agrees with the regex backtracking semantics. Returns the capture
and the remainder. -/
def matchNum (s : Str) : Option (Str × Str) :=
  let d1 := s.takeWhile Char.isDigit
  let r1 := s.dropWhile Char.isDigit
  if d1 = [] then none
  else
    match r1 with
    | '.' :: r2 =>
      let d2 := r2.takeWhile Char.isDigit
      if d2 = [] then some (d1, r1)
      else some (d1 ++ '.' :: d2, r2.dropWhile Char.isDigit)
    | _ => some (d1, r1)

/-- Match the dimension pattern
`"C"\s*:\s*\{\s*"A"\s*:\s*(\d+(?:\.\d+)?)\s*,\s*"B"\s*:\s*(\d+(?:\.\d+)?)\s*,\s*"C"\s*:\s*"D"\s*\}`
(line 66) at the head of the string, returning the two numeric captures. -/
def matchDimAt (s : Str) : Option (Str × Str) :=
  (dropLit "\"C\"".data s).bind fun s1 =>
  (dropLit ":".data (skipWs s1)).bind fun s2 =>
  (dropLit "\x7b".data (skipWs s2)).bind fun s3 =>
  (dropLit "\"A\"".data (skipWs s3)).bind fun s4 =>
  (dropLit ":".data (skipWs s4)).bind fun s5 =>
  (matchNum (skipWs s5)).bind fun (a, s6) =>
  (dropLit ",".data (skipWs s6)).bind fun s7 =>
  (dropLit "\"B\"".data (skipWs s7)).bind fun s8 =>
  (dropLit ":".data (skipWs s8)).bind fun s9 =>
  (matchNum (skipWs s9)).bind fun (b, s10) =>
  (dropLit ",".data (skipWs s10)).bind fun s11 =>
  (dropLit "\"C\"".data (skipWs s11)).bind fun s12 =>
  (dropLit ":".data (skipWs s12)).bind fun s13 =>
  (dropLit "\"D\"".data (skipWs s13)).bind fun s14 =>
  (dropLit "\x7d".data (skipWs s14)).map fun _ => (a, b)

/-- `_search_regex` (line 65): the leftmost occurrence of the dimension
pattern anywhere in the page, or absence. -/
def searchDim : Str → Option (Str × Str)
  | [] => none
  | s@(_ :: t) => (matchDimAt s).orElse fun _ => searchDim t

/-- Value of a digit run as a natural number. -/
def natFromDigits (s : Str) : Nat :=
  s.foldl (fun n c => 10 * n + (c.toNat - '0'.toNat)) 0

/-- Modelled from the spec: `int_or_none(float_or_none(x))` (not under src/) —
\"parsed from floating-point page fields and coerced to integers\": on a
`digits[.digits]` capture this truncates to the integer part (float rounding at
extreme precision is not modelled). -/
def numCaptureToInt (cap : Str) : Nat := natFromDigits (cap.takeWhile Char.isDigit)

/-- Lines 65-71: the page dimensions, defaulting to 1920x1080 when the pattern
is absent. -/
def dimsOf (w : Str) : Nat × Nat :=
  match searchDim w with
  | some (a, b) => (numCaptureToInt a, numCaptureToInt b)
  | none => (1920, 1080)

/-- The terminal status strings compared on lines 124 and 142. -/
def sCOMPLETE : Str := "COMPLETE".data

/-- The failure status string of line 142. -/
def sFAILED : Str := "FAILED".data

/-- The status string used by scripted pending responses in the tests of the
polling loop. -/
def sPENDING : Str := "PENDING".data

/-- The ways `_real_extract` terminates exceptionally (the `ExtractorError`
raises of canva.py, by site). -/
inductive ExtractError where
  | accessDenied
  | exportIdMissing
  | noDownloadUrl
  | exportFailed
  | timeout
  deriving DecidableEq

/-- The info dict returned on lines 132-140. -/
structure ExtractResult where
  id : Str
  title : Str
  url : Str
  ext : Str
  thumbnail : Option Str
  width : Nat
  height : Nat
  deriving DecidableEq

/-- Observable collaborator events, in order: the page fetch, the single
export-initiation call, and for each poll attempt the cooperative delay
followed by the poll fetch. -/
inductive Event where
  | fetchPage
  | initiateExport
  | sleepBeforePoll (attempt : Nat)
  | pollFetch (attempt : Nat)
  deriving DecidableEq

/-- The polling loop of lines 112-146, for attempts `attempt, attempt+1, ...`
with `fuel` attempts left of the 30-attempt budget; the poll response for
attempt `i` is `polls.getD (i-1) .null`. Returns the outcome and the event
trace of the cycles run. -/
def pollLoop (vid pageTitle : Str) (thumb : Option Str) (w h : Nat)
    (polls : List JVal) : Nat → Nat → Except ExtractError ExtractResult × List Event
  | _, 0 => (.error .timeout, [])
  | attempt, fuel + 1 =>
    let resp := polls.getD (attempt - 1) .null
    let evs : List Event := [.sleepBeforePoll attempt, .pollFetch attempt]
    if statusOf resp = some sCOMPLETE then
      match videoUrlOf resp with
      | some u =>
        (.ok { id := vid, title := pyOrStr (outTitleOf resp) pageTitle, url := u,
               ext := "mp4".data, thumbnail := thumb, width := w, height := h }, evs)
      | none => (.error .noDownloadUrl, evs)
    else if statusOf resp = some sFAILED then
      (.error .exportFailed, evs)
    else
      let step := pollLoop vid pageTitle thumb w h polls (attempt + 1) fuel
      (step.1, evs ++ step.2)

/-- `CanvaIE._real_extract` (lines 52-146) over the collaborator outputs: the
fetched page text, the og:title and html title the host helpers extract, the
og thumbnail, the initiate-export JSON response, and the scripted poll JSON
responses. Returns the outcome and the trace of observable events. -/
def realExtract (vid webpage : Str) (ogTitle : Option Str) (htmlTitle : Str)
    (thumbnail : Option Str) (exportResp : JVal) (polls : List JVal) :
    Except ExtractError ExtractResult × List Event :=
  if hasAccessMarker webpage then
    (.error .accessDenied, [.fetchPage])
  else
    let title := pyOrStr ogTitle htmlTitle
    let dims := dimsOf webpage
    match exportIdTruthy exportResp with
    | none => (.error .exportIdMissing, [.fetchPage, .initiateExport])
    | some _ =>
      let r := pollLoop vid title thumbnail dims.1 dims.2 polls 1 30
      (r.1, .fetchPage :: .initiateExport :: r.2)

/-- The delay-then-fetch event pairs of `n` consecutive poll cycles starting at
attempt `a`. -/
def cycleEvents : Nat → Nat → List Event
  | _, 0 => []
  | a, n + 1 => .sleepBeforePoll a :: .pollFetch a :: cycleEvents (a + 1) n

/-- A poll response that is neither COMPLETE nor FAILED keeps the loop going. -/
abbrev Nonterminal (j : JVal) : Prop :=
  statusOf j ≠ some sCOMPLETE ∧ statusOf j ≠ some sFAILED

theorem dropLit_suffix : ∀ (p s r : Str), dropLit p s = some r → r <:+ s
  | [], s, r, h => by
    simp only [dropLit, Option.some.injEq] at h
    exact h ▸ List.suffix_refl s
  | _ :: _, [], _, h => by simp [dropLit] at h
  | c :: p, x :: s, r, h => by
    by_cases hx : x = c
    · simp only [dropLit, if_pos hx] at h
      exact (dropLit_suffix p s r h).trans (List.suffix_cons x s)
    · simp [dropLit, hx] at h

theorem matchGuard_suffix (s r : Str) (h : matchGuard s = some r) : r <:+ s := by
  unfold matchGuard at h
  rw [Option.bind_eq_some] at h
  obtain ⟨s1, h1, h⟩ := h
  rw [Option.bind_eq_some] at h
  obtain ⟨s2, h2, h⟩ := h
  rw [Option.bind_eq_some] at h
  obtain ⟨s3, h3, h⟩ := h
  rw [Option.bind_eq_some] at h
  obtain ⟨s4, h4, h⟩ := h
  rw [Option.bind_eq_some] at h
  obtain ⟨s5, h5, h6⟩ := h
  have e1 : s1 <:+ s := dropLit_suffix _ _ _ h1
  have e2 : s2 <:+ s1 := (dropLit_suffix _ _ _ h2).trans (List.dropWhile_suffix _)
  have e3 : s3 <:+ s2 := (dropLit_suffix _ _ _ h3).trans (List.dropWhile_suffix _)
  have e4 : s4 <:+ s3 := (dropLit_suffix _ _ _ h4).trans (List.dropWhile_suffix _)
  have e5 : s5 <:+ s4 := (dropLit_suffix _ _ _ h5).trans (List.dropWhile_suffix _)
  have e6 : r <:+ s5 := (dropLit_suffix _ _ _ h6).trans (List.dropWhile_suffix _)
  exact e6.trans (e5.trans (e4.trans (e3.trans (e2.trans e1))))

theorem stripAux_suffix : ∀ (s r : Str), stripAux s = some r → r <:+ s
  | [], r, h => by simp [stripAux] at h
  | c :: t, r, h => by
    cases hm : matchGuard (c :: t) with
    | some r2 =>
      simp only [stripAux, hm, Option.some.injEq] at h
      exact h ▸ matchGuard_suffix _ _ hm
    | none =>
      simp only [stripAux, hm] at h
      by_cases hc : c = '\n'
      · simp [hc] at h
      · simp only [if_neg hc] at h
        exact (stripAux_suffix t r h).trans (List.suffix_cons c t)

theorem firstLineLen_cons (c : Char) (t : Str) (hc : ¬c = '\n') :
    firstLineLen (c :: t) = firstLineLen t + 1 := by
  simp [firstLineLen, List.takeWhile_cons, hc]

theorem stripAux_eq_none_of_firstLine : ∀ s : Str,
    (∀ i, i ≤ firstLineLen s → matchGuard (s.drop i) = none) → stripAux s = none
  | [], _ => rfl
  | c :: t, h => by
    have h0 : matchGuard (c :: t) = none := by simpa using h 0 (Nat.zero_le _)
    by_cases hc : c = '\n'
    · subst hc
      simp [stripAux, h0]
    · have ht : ∀ i, i ≤ firstLineLen t → matchGuard (t.drop i) = none := by
        intro i hi
        have hb : i + 1 ≤ firstLineLen (c :: t) := by
          rw [firstLineLen_cons c t hc]; omega
        simpa [List.drop_succ_cons] using h (i + 1) hb
      simp [stripAux, h0, hc, stripAux_eq_none_of_firstLine t ht]

theorem strip_noop_of_firstLine (s : Str)
    (h : ∀ i, i ≤ firstLineLen s → matchGuard (s.drop i) = none) :
    strip_json_hijack s = s := by
  unfold strip_json_hijack
  rw [stripAux_eq_none_of_firstLine s h]
  rfl

theorem stripAux_first_occurrence : ∀ (s r : Str), stripAux s = some r →
    ∃ i, i ≤ firstLineLen s ∧ matchGuard (s.drop i) = some r ∧
      ∀ j, j < i → matchGuard (s.drop j) = none
  | [], r, h => by simp [stripAux] at h
  | c :: t, r, h => by
    cases hm : matchGuard (c :: t) with
    | some r2 =>
      simp only [stripAux, hm, Option.some.injEq] at h
      exact ⟨0, Nat.zero_le _, by simpa [h] using hm, fun j hj => absurd hj (Nat.not_lt_zero j)⟩
    | none =>
      simp only [stripAux, hm] at h
      by_cases hc : c = '\n'
      · simp [hc] at h
      · simp only [if_neg hc] at h
        obtain ⟨i, hi, hmi, hmin⟩ := stripAux_first_occurrence t r h
        refine ⟨i + 1, ?_, by simpa [List.drop_succ_cons] using hmi, ?_⟩
        · rw [firstLineLen_cons c t hc]; omega
        · intro j hj
          match j with
          | 0 => simpa using hm
          | j' + 1 => simpa [List.drop_succ_cons] using hmin j' (by omega)

theorem guardFree_of_not_hasGuard (s : Str) (h : hasGuard s = false) : GuardFree s := by
  intro i
  by_cases hi : i ≤ s.length
  · cases hm : matchGuard (s.drop i) with
    | none => rfl
    | some r =>
      have : hasGuard s = true :=
        List.any_eq_true.mpr ⟨i, List.mem_range.mpr (by omega), by simp [hm]⟩
      rw [h] at this
      cases this
  · rw [List.drop_eq_nil_of_le (by omega)]
    rfl

/-- Claim C4: applied to the example text the hijack-strip transform removes
exactly the guard prefix, yielding the JSON payload; and on any string in
which the guard pattern occurs nowhere the transform is the identity. -/
theorem c4_strip_hijack_example_and_noop :
    strip_json_hijack "while (1)     ;    </x>//\x7b\"a\":1\x7d".data = "\x7b\"a\":1\x7d".data ∧
    ∀ s : Str, hasGuard s = false → strip_json_hijack s = s := by
  refine ⟨by decide, fun s h => ?_⟩
  exact strip_noop_of_firstLine s fun i _ => guardFree_of_not_hasGuard s h i

/-- Claim C4 witness: the transform leaves a concrete guard-free string
unchanged. -/
theorem c4_strip_hijack_example_and_noop_witness :
    hasGuard "hello world".data = false ∧
    strip_json_hijack "hello world".data = "hello world".data :=
  ⟨by decide, c4_strip_hijack_example_and_noop.2 "hello world".data (by decide)⟩

/-- Claim C9: the hijack-strip transform only ever deletes a leading prefix —
its output is a suffix of the input; when it does strip, the deleted prefix
ends exactly at the first position on the first line where the guard matches;
and when no guard occurrence starts on the first line (in particular when the
guard first appears only after a newline) the transform is the identity. -/
theorem c9_strip_suffix_first_line :
    (∀ s : Str, strip_json_hijack s <:+ s) ∧
    (∀ s r : Str, stripAux s = some r →
      ∃ i, i ≤ firstLineLen s ∧ matchGuard (s.drop i) = some r ∧
        ∀ j, j < i → matchGuard (s.drop j) = none) ∧
    (∀ s : Str, (∀ i, i ≤ firstLineLen s → matchGuard (s.drop i) = none) →
      strip_json_hijack s = s) := by
  refine ⟨fun s => ?_, stripAux_first_occurrence, strip_noop_of_firstLine⟩
  unfold strip_json_hijack
  cases hs : stripAux s with
  | none => exact List.suffix_refl s
  | some r => exact stripAux_suffix s r hs

/-- Claim C9 witness: a guard occurring only after a newline is not removed. -/
theorem c9_strip_suffix_first_line_witness :
    (∀ i, i ≤ firstLineLen "abc\nwhile(1); </x>//rest".data →
      matchGuard ("abc\nwhile(1); </x>//rest".data.drop i) = none) ∧
    strip_json_hijack "abc\nwhile(1); </x>//rest".data = "abc\nwhile(1); </x>//rest".data :=
  ⟨by decide, c9_strip_suffix_first_line.2.2 "abc\nwhile(1); </x>//rest".data (by decide)⟩

theorem realExtract_denied (vid webpage : Str) (ogT : Option Str) (hT : Str)
    (th : Option Str) (expResp : JVal) (polls : List JVal)
    (h : hasAccessMarker webpage = true) :
    realExtract vid webpage ogT hT th expResp polls =
      (.error .accessDenied, [.fetchPage]) := by
  simp [realExtract, h]

theorem realExtract_poll (vid webpage : Str) (ogT : Option Str) (hT : Str)
    (th : Option Str) (expResp : JVal) (polls : List JVal) (e : Str)
    (hclean : hasAccessMarker webpage = false)
    (he : exportIdTruthy expResp = some e) :
    realExtract vid webpage ogT hT th expResp polls =
      ((pollLoop vid (pyOrStr ogT hT) th (dimsOf webpage).1 (dimsOf webpage).2 polls 1 30).1,
       .fetchPage :: .initiateExport ::
         (pollLoop vid (pyOrStr ogT hT) th (dimsOf webpage).1 (dimsOf webpage).2 polls 1 30).2) := by
  simp [realExtract, hclean, he]

theorem pollLoop_step_pending (vid t : Str) (th : Option Str) (w hh : Nat)
    (polls : List JVal) (a fuel : Nat)
    (hs : Nonterminal (polls.getD (a - 1) .null)) :
    pollLoop vid t th w hh polls a (fuel + 1) =
      ((pollLoop vid t th w hh polls (a + 1) fuel).1,
       .sleepBeforePoll a :: .pollFetch a ::
         (pollLoop vid t th w hh polls (a + 1) fuel).2) := by
  simp only [pollLoop]
  rw [if_neg hs.1, if_neg hs.2]
  rfl

theorem pollLoop_step_complete (vid t : Str) (th : Option Str) (w hh : Nat)
    (polls : List JVal) (a fuel : Nat) (u : Str)
    (hs : statusOf (polls.getD (a - 1) .null) = some sCOMPLETE)
    (hu : videoUrlOf (polls.getD (a - 1) .null) = some u) :
    pollLoop vid t th w hh polls a (fuel + 1) =
      (.ok { id := vid, title := pyOrStr (outTitleOf (polls.getD (a - 1) .null)) t,
             url := u, ext := "mp4".data, thumbnail := th, width := w, height := hh },
       [.sleepBeforePoll a, .pollFetch a]) := by
  simp only [pollLoop]
  rw [if_pos hs, hu]

theorem pollLoop_step_complete_nourl (vid t : Str) (th : Option Str) (w hh : Nat)
    (polls : List JVal) (a fuel : Nat)
    (hs : statusOf (polls.getD (a - 1) .null) = some sCOMPLETE)
    (hu : videoUrlOf (polls.getD (a - 1) .null) = none) :
    pollLoop vid t th w hh polls a (fuel + 1) =
      (.error .noDownloadUrl, [.sleepBeforePoll a, .pollFetch a]) := by
  simp only [pollLoop]
  rw [if_pos hs, hu]

theorem some_sFAILED_ne_some_sCOMPLETE : some sFAILED ≠ some sCOMPLETE := by decide

theorem pollLoop_step_failed (vid t : Str) (th : Option Str) (w hh : Nat)
    (polls : List JVal) (a fuel : Nat)
    (hs : statusOf (polls.getD (a - 1) .null) = some sFAILED) :
    pollLoop vid t th w hh polls a (fuel + 1) =
      (.error .exportFailed, [.sleepBeforePoll a, .pollFetch a]) := by
  simp only [pollLoop]
  rw [if_neg (by rw [hs]; exact some_sFAILED_ne_some_sCOMPLETE), if_pos hs]

theorem pollLoop_timeout (vid t : Str) (th : Option Str) (w hh : Nat)
    (polls : List JVal) :
    ∀ (fuel a : Nat), (∀ i, i < fuel → Nonterminal (polls.getD (a + i - 1) .null)) →
      pollLoop vid t th w hh polls a fuel = (.error .timeout, cycleEvents a fuel)
  | 0, a, _ => by simp [pollLoop, cycleEvents]
  | fuel + 1, a, hnt => by
    have h0 : Nonterminal (polls.getD (a - 1) .null) := by
      simpa using hnt 0 (Nat.succ_pos _)
    have ih := pollLoop_timeout vid t th w hh polls fuel (a + 1) fun i hi => by
      have := hnt (i + 1) (by omega)
      rwa [show a + (i + 1) - 1 = a + 1 + i - 1 from by omega] at this
    rw [pollLoop_step_pending vid t th w hh polls a fuel h0, ih]
    simp [cycleEvents]

/-- Claim C2: when none of the 30 poll responses is terminal, the extractor
performs exactly 30 delay-then-fetch cycles and fails with the timeout error,
never issuing a 31st poll. -/
theorem c2_poll_budget_timeout (vid webpage : Str) (ogT : Option Str) (hT : Str)
    (th : Option Str) (expResp : JVal) (polls : List JVal)
    (hclean : hasAccessMarker webpage = false)
    (hid : ∃ e, exportIdTruthy expResp = some e)
    (hpend : ∀ i, i < 30 → Nonterminal (polls.getD i .null)) :
    realExtract vid webpage ogT hT th expResp polls =
      (.error .timeout, .fetchPage :: .initiateExport :: cycleEvents 1 30) ∧
    Event.pollFetch 31 ∉ (realExtract vid webpage ogT hT th expResp polls).2 := by
  obtain ⟨e, he⟩ := hid
  have hp := pollLoop_timeout vid (pyOrStr ogT hT) th (dimsOf webpage).1 (dimsOf webpage).2
    polls 30 1 fun i hi => by
      rw [show 1 + i - 1 = i from by omega]
      exact hpend i hi
  have hr : realExtract vid webpage ogT hT th expResp polls =
      (.error .timeout, .fetchPage :: .initiateExport :: cycleEvents 1 30) := by
    rw [realExtract_poll vid webpage ogT hT th expResp polls e hclean he, hp]
  refine ⟨hr, ?_⟩
  rw [hr]
  decide

/-- A benign page: no denial markers and no dimension pattern. -/
def benignPage : Str := "a design page".data

/-- A scripted initiate-export response holding a string export identifier. -/
def expOk : JVal :=
  .jobj [("export".data, .jobj [("exportIdentifier".data, .jstr "E1".data)])]

/-- A scripted pending poll response. -/
def pendingResp : JVal :=
  .jobj [("export".data, .jobj [("status".data, .jstr "PENDING".data)])]

/-- A scripted COMPLETE poll response with an output title and a well-formed
URL at the `export.output.exportBlobs[0].url` path. -/
def doneResp : JVal :=
  .jobj [("export".data, .jobj [
    ("status".data, .jstr "COMPLETE".data),
    ("output".data, .jobj [
      ("title".data, .jstr "Out".data),
      ("exportBlobs".data, .jarr [.jobj [("url".data,
        .jstr "https://media/file.mp4".data)]])])])]

/-- A scripted FAILED poll response. -/
def failedResp : JVal :=
  .jobj [("export".data, .jobj [("status".data, .jstr "FAILED".data)])]

/-- A scripted COMPLETE poll response carrying no URL at either known path. -/
def doneNoUrlResp : JVal :=
  .jobj [("export".data, .jobj [("status".data, .jstr "COMPLETE".data)])]

/-- Claim C2 witness: thirty pending responses exhaust the budget. -/
theorem c2_poll_budget_timeout_witness :
    hasAccessMarker benignPage = false ∧
    realExtract "D1".data benignPage none "T".data none expOk
        (List.replicate 30 pendingResp) =
      (.error .timeout, .fetchPage :: .initiateExport :: cycleEvents 1 30) :=
  ⟨by decide,
    (c2_poll_budget_timeout "D1".data benignPage none "T".data none expOk
      (List.replicate 30 pendingResp) (by decide) ⟨"E1".data, by decide⟩ (by decide)).1⟩

/-- Claim C3: a PENDING, PENDING, COMPLETE poll sequence whose third response
carries a well-formed URL yields exactly three delay-then-fetch cycles (each
delay preceding its fetch) and the assembled result: the design id, the job
output title falling back to the page title, the resolved URL, extension mp4,
the page thumbnail and the page-derived dimensions. -/
theorem c3_three_cycle_success (vid webpage : Str) (ogT : Option Str) (hT : Str)
    (th : Option Str) (expResp p1 p2 p3 : JVal) (rest : List JVal) (u : Str)
    (hclean : hasAccessMarker webpage = false)
    (hid : ∃ e, exportIdTruthy expResp = some e)
    (h1 : statusOf p1 = some sPENDING) (h2 : statusOf p2 = some sPENDING)
    (h3 : statusOf p3 = some sCOMPLETE) (hu : videoUrlOf p3 = some u) :
    realExtract vid webpage ogT hT th expResp (p1 :: p2 :: p3 :: rest) =
      (.ok { id := vid, title := pyOrStr (outTitleOf p3) (pyOrStr ogT hT), url := u,
             ext := "mp4".data, thumbnail := th,
             width := (dimsOf webpage).1, height := (dimsOf webpage).2 },
       [.fetchPage, .initiateExport, .sleepBeforePoll 1, .pollFetch 1,
        .sleepBeforePoll 2, .pollFetch 2, .sleepBeforePoll 3, .pollFetch 3]) := by
  obtain ⟨e, he⟩ := hid
  have nt1 : Nonterminal p1 := ⟨by rw [h1]; decide, by rw [h1]; decide⟩
  have nt2 : Nonterminal p2 := ⟨by rw [h2]; decide, by rw [h2]; decide⟩
  rw [realExtract_poll vid webpage ogT hT th expResp _ e hclean he,
    show (30 : Nat) = 29 + 1 from rfl,
    pollLoop_step_pending _ _ _ _ _ (p1 :: p2 :: p3 :: rest) 1 29 nt1,
    show (29 : Nat) = 28 + 1 from rfl,
    pollLoop_step_pending _ _ _ _ _ (p1 :: p2 :: p3 :: rest) 2 28 nt2,
    show (28 : Nat) = 27 + 1 from rfl,
    pollLoop_step_complete _ _ _ _ _ (p1 :: p2 :: p3 :: rest) 3 27 u h3 hu]
  rfl

/-- Claim C3 witness: a concrete pending, pending, complete run. -/
theorem c3_three_cycle_success_witness :
    statusOf doneResp = some sCOMPLETE ∧
    videoUrlOf doneResp = some "https://media/file.mp4".data ∧
    realExtract "D1".data benignPage none "T".data none expOk
        [pendingResp, pendingResp, doneResp] =
      (.ok { id := "D1".data, title := "Out".data, url := "https://media/file.mp4".data,
             ext := "mp4".data, thumbnail := none, width := 1920, height := 1080 },
       [.fetchPage, .initiateExport, .sleepBeforePoll 1, .pollFetch 1,
        .sleepBeforePoll 2, .pollFetch 2, .sleepBeforePoll 3, .pollFetch 3]) :=
  ⟨by decide, by decide,
    c3_three_cycle_success "D1".data benignPage none "T".data none expOk
      pendingResp pendingResp doneResp [] "https://media/file.mp4".data
      (by decide) ⟨"E1".data, by decide⟩ (by decide) (by decide) (by decide) (by decide)⟩

/-- Claim C5: a first poll response with status FAILED makes the poller fail
with the remote-job error after exactly one delay-then-fetch cycle, with no
further poll requests. -/
theorem c5_failed_first_cycle (vid webpage : Str) (ogT : Option Str) (hT : Str)
    (th : Option Str) (expResp p1 : JVal) (rest : List JVal)
    (hclean : hasAccessMarker webpage = false)
    (hid : ∃ e, exportIdTruthy expResp = some e)
    (hf : statusOf p1 = some sFAILED) :
    realExtract vid webpage ogT hT th expResp (p1 :: rest) =
      (.error .exportFailed,
       [.fetchPage, .initiateExport, .sleepBeforePoll 1, .pollFetch 1]) := by
  obtain ⟨e, he⟩ := hid
  rw [realExtract_poll vid webpage ogT hT th expResp _ e hclean he,
    show (30 : Nat) = 29 + 1 from rfl,
    pollLoop_step_failed _ _ _ _ _ (p1 :: rest) 1 29 hf]

/-- Claim C5 witness: a concrete FAILED first response. -/
theorem c5_failed_first_cycle_witness :
    statusOf failedResp = some sFAILED ∧
    realExtract "D1".data benignPage none "T".data none expOk [failedResp] =
      (.error .exportFailed,
       [.fetchPage, .initiateExport, .sleepBeforePoll 1, .pollFetch 1]) :=
  ⟨by decide,
    c5_failed_first_cycle "D1".data benignPage none "T".data none expOk failedResp []
      (by decide) ⟨"E1".data, by decide⟩ (by decide)⟩

/-- Claim C6: on a COMPLETE response the URL is resolved from
`export.output.exportBlobs[0].url` first; only when that path yields no
well-formed URL is `export.exportBlobs[0].url` consulted; when neither yields
one, the run fails with the protocol error after this single cycle, issuing no
further poll requests and returning no null or empty URL. -/
theorem c6_complete_url_fallback (vid webpage : Str) (ogT : Option Str) (hT : Str)
    (th : Option Str) (expResp p : JVal) (rest : List JVal)
    (hclean : hasAccessMarker webpage = false)
    (hid : ∃ e, exportIdTruthy expResp = some e)
    (hc : statusOf p = some sCOMPLETE) :
    (∀ u, urlFromOutput p = some u →
      realExtract vid webpage ogT hT th expResp (p :: rest) =
        (.ok { id := vid, title := pyOrStr (outTitleOf p) (pyOrStr ogT hT), url := u,
               ext := "mp4".data, thumbnail := th,
               width := (dimsOf webpage).1, height := (dimsOf webpage).2 },
         [.fetchPage, .initiateExport, .sleepBeforePoll 1, .pollFetch 1])) ∧
    (urlFromOutput p = none → ∀ u, urlFromExport p = some u →
      realExtract vid webpage ogT hT th expResp (p :: rest) =
        (.ok { id := vid, title := pyOrStr (outTitleOf p) (pyOrStr ogT hT), url := u,
               ext := "mp4".data, thumbnail := th,
               width := (dimsOf webpage).1, height := (dimsOf webpage).2 },
         [.fetchPage, .initiateExport, .sleepBeforePoll 1, .pollFetch 1])) ∧
    (urlFromOutput p = none → urlFromExport p = none →
      realExtract vid webpage ogT hT th expResp (p :: rest) =
        (.error .noDownloadUrl,
         [.fetchPage, .initiateExport, .sleepBeforePoll 1, .pollFetch 1])) := by
  obtain ⟨e, he⟩ := hid
  refine ⟨fun u hu => ?_, fun hA u hu => ?_, fun hA hB => ?_⟩
  · rw [realExtract_poll vid webpage ogT hT th expResp _ e hclean he,
      show (30 : Nat) = 29 + 1 from rfl,
      pollLoop_step_complete _ _ _ _ _ (p :: rest) 1 29 u hc
        (by simp [videoUrlOf, hu])]
    rfl
  · rw [realExtract_poll vid webpage ogT hT th expResp _ e hclean he,
      show (30 : Nat) = 29 + 1 from rfl,
      pollLoop_step_complete _ _ _ _ _ (p :: rest) 1 29 u hc
        (by simp [videoUrlOf, hA, hu, Option.orElse])]
    rfl
  · rw [realExtract_poll vid webpage ogT hT th expResp _ e hclean he,
      show (30 : Nat) = 29 + 1 from rfl,
      pollLoop_step_complete_nourl _ _ _ _ _ (p :: rest) 1 29 hc
        (by simp [videoUrlOf, hA, hB, Option.orElse])]

/-- Claim C6 witness: a COMPLETE response with neither URL path present fails
with the protocol error after one cycle. -/
theorem c6_complete_url_fallback_witness :
    statusOf doneNoUrlResp = some sCOMPLETE ∧
    urlFromOutput doneNoUrlResp = none ∧ urlFromExport doneNoUrlResp = none ∧
    realExtract "D1".data benignPage none "T".data none expOk [doneNoUrlResp] =
      (.error .noDownloadUrl,
       [.fetchPage, .initiateExport, .sleepBeforePoll 1, .pollFetch 1]) :=
  ⟨by decide, by decide, by decide,
    (c6_complete_url_fallback "D1".data benignPage none "T".data none expOk doneNoUrlResp []
      (by decide) ⟨"E1".data, by decide⟩ (by decide)).2.2 (by decide) (by decide)⟩

/-- Claim C8: when the initiate-export response has no string at
`export.exportIdentifier`, the run fails with the protocol error; the trace
shows the single export-initiation call and no poll request. -/
theorem c8_missing_export_id (vid webpage : Str) (ogT : Option Str) (hT : Str)
    (th : Option Str) (expResp : JVal) (polls : List JVal)
    (hclean : hasAccessMarker webpage = false)
    (hmiss : exportIdOf expResp = none) :
    realExtract vid webpage ogT hT th expResp polls =
      (.error .exportIdMissing, [.fetchPage, .initiateExport]) := by
  simp [realExtract, hclean, exportIdTruthy, hmiss]

/-- Claim C8 witness: a null initiate-export response. -/
theorem c8_missing_export_id_witness :
    exportIdOf .null = none ∧
    realExtract "D1".data benignPage none "T".data none .null [] =
      (.error .exportIdMissing, [.fetchPage, .initiateExport]) :=
  ⟨by decide,
    c8_missing_export_id "D1".data benignPage none "T".data none .null []
      (by decide) (by decide)⟩

/-- Claim C1 counterexample: a page reading "REQUEST ACCESS" contains the
marker "Request access" in another letter case, yet the extractor does not
deny access — it proceeds and issues the export-initiation call (the code
matches "Request access" only in its exact case). -/
theorem c1_request_access_case_cex :
    (lowerStr sRequestAccess <:+: lowerStr "REQUEST ACCESS".data) ∧
    hasAccessMarker "REQUEST ACCESS".data = false ∧
    (realExtract "D1".data "REQUEST ACCESS".data none "T".data none .null []).1 =
      .error .exportIdMissing ∧
    (realExtract "D1".data "REQUEST ACCESS".data none "T".data none .null []).2 =
      [.fetchPage, .initiateExport] :=
  ⟨by decide, by decide, rfl, rfl⟩

/-- Claim C1 (amended): a fetched page containing "permission" in any letter
case, or containing the string "Request access" in its exact case, makes the
extractor fail with the access-denied error and issue no export-initiation
call; other case variants of "Request access" are not matched. -/
theorem c1_access_markers_amended (vid webpage : Str) (ogT : Option Str) (hT : Str)
    (th : Option Str) (expResp : JVal) (polls : List JVal)
    (h : sPermission <:+: lowerStr webpage ∨ sRequestAccess <:+: webpage) :
    realExtract vid webpage ogT hT th expResp polls =
      (.error .accessDenied, [.fetchPage]) := by
  apply realExtract_denied
  simp only [hasAccessMarker, Bool.or_eq_true, decide_eq_true_eq]
  exact h

/-- Claim C1 witness: a page with the exact-case marker is denied. -/
theorem c1_access_markers_amended_witness :
    (sRequestAccess <:+: "Please Request access here".data) ∧
    realExtract "D1".data "Please Request access here".data none "T".data none .null [] =
      (.error .accessDenied, [.fetchPage]) :=
  ⟨by decide,
    c1_access_markers_amended "D1".data "Please Request access here".data none "T".data
      none .null [] (Or.inr (by decide))⟩

/-- A page carrying the embedded dimension fragment of the spec example. -/
def dimPage : Str :=
  "header \"C\":\x7b\"A\":1280.0,\"B\":720.0,\"C\":\"D\"\x7d footer".data

/-- Claim C7: when the embedded dimension pattern is absent the dimensions are
exactly 1920x1080; when present the two numeric captures, parsed and coerced
to integers, become width and height — 1280 and 720 on the spec's example
fragment. -/
theorem c7_dimensions_default_and_parse :
    (∀ w : Str, searchDim w = none → dimsOf w = (1920, 1080)) ∧
    (∀ w a b, searchDim w = some (a, b) →
      dimsOf w = (numCaptureToInt a, numCaptureToInt b)) ∧
    dimsOf dimPage = (1280, 720) := by
  refine ⟨fun w h => ?_, fun w a b h => ?_, by decide⟩
  · simp [dimsOf, h]
  · simp [dimsOf, h]

/-- Claim C7 witness: a page without the pattern gets the default dimensions. -/
theorem c7_dimensions_default_and_parse_witness :
    searchDim benignPage = none ∧ dimsOf benignPage = (1920, 1080) :=
  ⟨by decide, c7_dimensions_default_and_parse.1 benignPage (by decide)⟩

/-- Claim C10: a page containing "permission" at any position and in any
letter case — as a substring decomposition `pre ++ mid ++ post` whose middle
lowercases to "permission" — is denied with no export-initiation call,
whatever the rest of the inputs would have produced. -/
theorem c10_permission_any_case (vid pre mid post : Str) (ogT : Option Str) (hT : Str)
    (th : Option Str) (expResp : JVal) (polls : List JVal)
    (hmid : lowerStr mid = sPermission) :
    realExtract vid (pre ++ mid ++ post) ogT hT th expResp polls =
      (.error .accessDenied, [.fetchPage]) := by
  apply realExtract_denied
  have hinf : sPermission <:+: lowerStr (pre ++ mid ++ post) := by
    refine ⟨lowerStr pre, lowerStr post, ?_⟩
    rw [← hmid]
    simp [lowerStr]
  simp only [hasAccessMarker, Bool.or_eq_true, decide_eq_true_eq]
  exact Or.inl hinf

/-- Claim C10 witness: the marker inside a larger word and in mixed case. -/
theorem c10_permission_any_case_witness :
    lowerStr "PerMission".data = sPermission ∧
    realExtract "D1".data ("A ".data ++ "PerMission".data ++ "s needed".data) none
        "T".data none .null [] =
      (.error .accessDenied, [.fetchPage]) :=
  ⟨by decide,
    c10_permission_any_case "D1".data "A ".data "PerMission".data "s needed".data none
      "T".data none .null [] (by decide)⟩

end Canva
